import Mathlib

/-!
Verification development for the metacat catalog engine
(`src/metacat/db/dbobjects2.py`, `src/metacat/db/common.py`).

The Python source is shallowly embedded: pure string-building code becomes
Lean functions over `String`, Python `assert` failures and raised exceptions
become `Except` errors, and the mutable database state touched by the ingest
paths becomes explicit state passing.  Python strings are embedded as `String`
(or `List Char` where character-level induction is needed), Python `None` as
`Option.none`, dict literals that keep insertion order as association lists.
-/

namespace Metacat

/-! ## Literal values

`MetaExpressionDNF.sql_and` (dbobjects2.py lines 742-752) renders literal
values with two helpers.  The Python literals that can reach those helpers in
the embedded claims are strings, booleans, integers and `None`; they are
embedded as the `Lit` type.  (Floats are rendered by the same `str(v)` fallback
as integers and are not needed by any claim, so they are not modelled.)
-/

inductive Lit where
  | s (v : String)
  | i (v : Int)
  | b (v : Bool)
  | null
deriving DecidableEq, Repr

/-- dbobjects2.py lines 742-747 (`sql_literal` inside `sql_and`):
strings are wrapped in single quotes, booleans become `true`/`false`,
`None` becomes `null`, anything else is `str(v)`. -/
def sql_literal : Lit → String
  | .s v => "'" ++ v ++ "'"
  | .b v => if v then "true" else "false"
  | .null => "null"
  | .i v => toString v

/-- dbobjects2.py lines 749-752 (`json_literal` inside `sql_and`):
strings are wrapped in double quotes, everything else falls back to
`sql_literal`. -/
def json_literal : Lit → String
  | .s v => "\"" ++ v ++ "\""
  | l => sql_literal l

/-- dbobjects2.py lines 331-333: `DBFile.ColumnAttributes`, the column names
which can be used in queries. -/
def ColumnAttributes : List String :=
  ["creator", "created_timestamp", "name", "namespace", "size"]

/-- Python `'.' in aname` (a one-character substring test is membership of the
character in the string). -/
def hasDot (s : String) : Bool := s.data.contains '.'

/-- Python `s.startswith('!')`. -/
def startsWithBang (s : String) : Bool :=
  match s.data with
  | c :: _ => c = '!'
  | [] => false

/-- Python `s[1:]`. -/
def dropFirst (s : String) : String := String.mk (s.data.drop 1)

/-- Python `s.endswith("*")`. -/
def endsWithStar (s : String) : Bool :=
  match s.data.getLast? with
  | some c => c = '*'
  | none => false

/-! ## The DNF expression tree

`MetaExpressionDNF` receives a `meta_or` of `meta_and`s of atomic predicate
nodes (dbobjects2.py lines 706-729).  An atomic predicate node carries an
operator tag `exp.T`, a negation flag `exp["neg"]`, a primary argument node in
`exp.C[0]` whose tag is one of `scalar` / `array_subscript` / `array_any` /
`array_length` (line 793), and operator-specific payload.  The node structure
is embedded as the inductive types below; the asserted tag sets (lines 791 and
793) hold by construction.
-/

inductive Arg where
  | scalar (name : String)
  | array_subscript (name : String) (index : Lit)
  | array_any (name : String)
  | array_length (name : String)
deriving DecidableEq, Repr

/-- `arg["name"]`. -/
def Arg.aname : Arg → String
  | .scalar n => n
  | .array_subscript n _ => n
  | .array_any n => n
  | .array_length n => n

/-- `arg.T == "scalar"`. -/
def Arg.isScalar : Arg → Bool
  | .scalar _ => true
  | _ => false

/-- `arg.T == "array_length"`. -/
def Arg.isArrayLength : Arg → Bool
  | .array_length _ => true
  | _ => false

/-- The `subscript` local of `sql_and` (dbobjects2.py lines 800-810): the JSON
path suffix.  For `array_length` the Python code never reads `subscript`, so
the value returned for it here is immaterial. -/
def Arg.subscript : Arg → String
  | .scalar _ => ""
  | .array_subscript _ inx => "[" ++ json_literal inx ++ "]"
  | .array_any _ => "[*]"
  | .array_length _ => ""

inductive MetaExp where
  | present (name : String)
  | not_present (name : String)
  | cmp_op (neg : Bool) (arg : Arg) (op : String) (value : Lit)
  | in_range (neg : Bool) (arg : Arg) (low high : Lit)
  | not_in_range (neg : Bool) (arg : Arg) (low high : Lit)
  | in_set (neg : Bool) (arg : Arg) (vals : List Lit)
  | not_in_set (neg : Bool) (arg : Arg) (vals : List Lit)
deriving DecidableEq, Repr

/-! ## Compilation of one atomic predicate

`sql_and_atom` embeds one iteration of the `for exp in and_term` loop of
`MetaExpressionDNF.sql_and` (dbobjects2.py lines 766-923), producing the
`term` value that the loop appends to `parts` (after the final
`if negate: term = f"not ({term})"` wrap of line 922).  Python `assert`
failures become `Except.error`.
-/

/-- Lines 794-798: in the non-presence branch the code asserts that an
attribute name without a dot refers to a fixed column:
`assert arg.T == "scalar"` then `assert aname in DBFile.ColumnAttributes`.
Returns the pair `(negate, aname)` read on lines 794-795 when the asserts
pass. -/
def checkPlainName (arg : Arg) : Except String Unit :=
  if hasDot arg.aname then .ok ()
  else if !arg.isScalar then .error "AssertionError: arg.T == scalar"
  else if !(ColumnAttributes.contains arg.aname) then
    .error "AssertionError: aname in DBFile.ColumnAttributes"
  else .ok ()

/-- The body computed for one atomic predicate before the outer negation wrap;
returns the `term` string and the (possibly absorbed) `negate` flag as of line
922. -/
def sql_and_body (table_name : String) (exp : MetaExp) :
    Except String (String × Bool) :=
  match exp with
  | .present aname =>
      -- lines 776-781; `negate` is never set in this branch
      if !(hasDot aname) then
        .ok (if ColumnAttributes.contains aname then "true" else "false", false)
      else
        .ok (table_name ++ ".metadata ? '" ++ aname ++ "'", false)
  | .not_present aname =>
      -- lines 783-788; the dotted case emits the same term as `present`,
      -- and `negate` is never set in this branch either
      if !(hasDot aname) then
        .ok (if ColumnAttributes.contains aname then "false" else "true", false)
      else
        .ok (table_name ++ ".metadata ? '" ++ aname ++ "'", false)
  | .in_range neg arg low high => do
      checkPlainName arg
      let aname := arg.aname
      -- lines 824-838: low/high go through json_literal first (lines 827-828)
      let lowJ := json_literal low
      let highJ := json_literal high
      if !(hasDot aname) then
        -- lines 829-832: sql_literal is applied to the *already rendered*
        -- strings, so they are single-quoted a second time
        let lowS := "'" ++ lowJ ++ "'"
        let highS := "'" ++ highJ ++ "'"
        .ok (table_name ++ "." ++ aname ++ " between " ++ lowS ++ " and " ++ highS, neg)
      else if !arg.isArrayLength then
        .ok (table_name ++ ".metadata @? '$.\"" ++ aname ++ "\"" ++ arg.subscript
              ++ " ? (@ >= " ++ lowJ ++ " && @ <= " ++ highJ ++ ")'", neg)
      else
        -- lines 835-838: the negation is absorbed (`negate = False`)
        let n := if neg then "not" else ""
        .ok ("jsonb_array_length(" ++ table_name ++ ".metadata -> '" ++ aname
              ++ "') " ++ n ++ " between " ++ lowJ ++ " and " ++ highJ, false)
  | .not_in_range neg arg low high => do
      checkPlainName arg
      let aname := arg.aname
      -- lines 840-854
      let lowJ := json_literal low
      let highJ := json_literal high
      if !(hasDot aname) then
        let lowS := "'" ++ lowJ ++ "'"
        let highS := "'" ++ highJ ++ "'"
        .ok ("not (" ++ table_name ++ "." ++ aname ++ " between " ++ lowS
              ++ " and " ++ highS ++ ")", neg)
      else if !arg.isArrayLength then
        .ok (table_name ++ ".metadata @? '$.\"" ++ aname ++ "\"" ++ arg.subscript
              ++ " ? (@ < " ++ lowJ ++ " || @ > " ++ highJ ++ ")'", neg)
      else
        -- lines 851-854: a double negation cancels (`n = "" if negate else "not"`)
        let n := if neg then "" else "not"
        .ok ("jsonb_array_length(" ++ table_name ++ ".metadata -> '" ++ aname
              ++ "') " ++ n ++ " between " ++ lowJ ++ " and " ++ highJ, false)
  | .in_set neg arg vals => do
      checkPlainName arg
      let aname := arg.aname
      -- lines 856-871
      if !(hasDot aname) then
        let value_list := String.intercalate "," (vals.map sql_literal)
        .ok (table_name ++ "." ++ aname ++ " in (" ++ value_list ++ ")", neg)
      else if arg.isArrayLength then
        let value_list := String.intercalate "," (vals.map sql_literal)
        let n := if neg then "not" else ""
        .ok ("jsonb_array_length(" ++ table_name ++ ".metadata -> '" ++ aname
              ++ "') " ++ n ++ " in (" ++ value_list ++ ")", false)
      else
        let predicate := String.intercalate " || "
          (vals.map fun v => "@ == " ++ json_literal v)
        .ok (table_name ++ ".metadata @? '$.\"" ++ aname ++ "\"" ++ arg.subscript
              ++ " ? (" ++ predicate ++ ")'", neg)
  | .not_in_set neg arg vals => do
      checkPlainName arg
      let aname := arg.aname
      -- lines 873-888
      if !(hasDot aname) then
        let value_list := String.intercalate "," (vals.map sql_literal)
        .ok ("not (" ++ table_name ++ "." ++ aname ++ " in (" ++ value_list ++ "))", neg)
      else if arg.isArrayLength then
        let value_list := String.intercalate "," (vals.map sql_literal)
        let n := if neg then "" else "not"
        .ok ("not(jsonb_array_length(" ++ table_name ++ ".metadata -> '" ++ aname
              ++ "') " ++ n ++ " in (" ++ value_list ++ "))", false)
      else
        let predicate := String.intercalate " && "
          (vals.map fun v => "@ != " ++ json_literal v)
        .ok (table_name ++ ".metadata @? '$.\"" ++ aname ++ "\"" ++ arg.subscript
              ++ " ? (" ++ predicate ++ ")'", neg)
  | .cmp_op neg arg op value => do
      checkPlainName arg
      let aname := arg.aname
      -- lines 890-920
      let cmp_op := if op = "=" then "==" else op
      let sql_cmp_op := if cmp_op = "==" then "=" else cmp_op
      let sql_value := sql_literal value
      let valueJ := json_literal value
      if !(hasDot aname) then
        .ok (table_name ++ "." ++ aname ++ " " ++ sql_cmp_op ++ " " ++ sql_value, neg)
      else if arg.isArrayLength then
        .ok ("jsonb_array_length(" ++ table_name ++ ".metadata -> '" ++ aname
              ++ "') " ++ sql_cmp_op ++ " " ++ valueJ, neg)
      else if cmp_op = "~" ∨ cmp_op = "~*" ∨ cmp_op = "!~" ∨ cmp_op = "!~*" then
        -- lines 904-916
        let negate_predicate := startsWithBang cmp_op
        let cmp_op := if startsWithBang cmp_op then dropFirst cmp_op else cmp_op
        let flags := if endsWithStar cmp_op then " flag \"i\"" else ""
        -- line 911: the flags are appended to the value ...
        let valueF := valueJ ++ flags
        -- line 913: ... and interpolated once more after the value
        let predicate := "@ like_regex " ++ valueF ++ " " ++ flags
        let predicate := if negate_predicate then "!(" ++ predicate ++ ")" else predicate
        .ok (table_name ++ ".metadata @? '$.\"" ++ aname ++ "\"" ++ arg.subscript
              ++ " ? (" ++ predicate ++ ")'", neg)
      else
        .ok (table_name ++ ".metadata @@ '$.\"" ++ aname ++ "\"" ++ arg.subscript
              ++ " " ++ cmp_op ++ " " ++ valueJ ++ "'", neg)

/-- One atomic predicate compiled to the string appended to `parts`: the body
term with the outer `not (...)` wrap of line 922 when the surviving `negate`
flag is set. -/
def sql_and_atom (table_name : String) (exp : MetaExp) : Except String String := do
  let (term, negate) ← sql_and_body table_name exp
  return if negate then "not (" ++ term ++ ")" else term

/-- `MetaExpressionDNF.sql_and` (dbobjects2.py lines 739-937): each atomic
term is parenthesized and the results are joined with `" and "` (line 937;
`contains_items` is never appended to, so the line 925-926 block is dead). -/
def sql_and (and_term : List MetaExp) (table_name : String) : Except String String := do
  let parts ← and_term.mapM (sql_and_atom table_name)
  return String.intercalate " and " (parts.map fun p => "(" ++ p ++ ")")

/-- `MetaExpressionDNF.sql` (dbobjects2.py lines 939-943).  The `DNF` field is
`None` when the constructor received no expression and a list of and-terms
otherwise (lines 715-729); `if self.DNF:` treats `None` and the empty list
alike, returning `None` (no WHERE expression). -/
def MetaExpressionDNF.sql (dnf : Option (List (List MetaExp))) (table_name : String) :
    Except String (Option String) :=
  match dnf with
  | none => .ok none
  | some l =>
      if l.isEmpty then .ok none
      else do
        let terms ← l.mapM (fun t => sql_and t table_name)
        return some (String.intercalate " or " terms)

/-- dbobjects2.py line 224 (`DBFileSet.sql_for_basic_query`):
`meta_where_clause = f"where {where_exp}" if where_exp else ""` — the WHERE
clause is elided when `sql` returned `None` (or an empty string). -/
def meta_where_clause (where_exp : Option String) : String :=
  match where_exp with
  | none => ""
  | some s => if s.data.isEmpty then "" else "where " ++ s

/-! ## `parse_name`

The repository contains two implementations of `parse_name`:
`src/metacat/db/dbobjects2.py` lines 28-36 and `src/metacat/db/common.py`
lines 32-41.  Python strings are embedded as `List Char` here so that the
splitting behaviour can be proved by induction on the characters. -/

/-- Python `name.split(":", 1)` on the character level: the part before the
first `':'` and, when a `':'` is present, the part after it. -/
def splitFirstColon : List Char → List Char × Option (List Char)
  | [] => ([], none)
  | c :: rest =>
      if c = ':' then ([], some rest)
      else
        let (a, b) := splitFirstColon rest
        (c :: a, b)

/-- dbobjects2.py lines 28-36: `if len(words) < 2 or not words[0]` use the
default namespace (asserting it is truthy) and keep `words[-1]` as the name;
otherwise the two split parts are the namespace and the name. -/
def parse_name (name : List Char) (default_namespace : Option (List Char)) :
    Except String (List Char × List Char) :=
  match splitFirstColon name with
  | (w0, none) =>
      match default_namespace with
      | some d =>
          if d.isEmpty then .error "AssertionError: Null default namespace"
          else .ok (d, w0)
      | none => .error "AssertionError: Null default namespace"
  | (w0, some w1) =>
      if w0.isEmpty then
        match default_namespace with
        | some d =>
            if d.isEmpty then .error "AssertionError: Null default namespace"
            else .ok (d, w1)
        | none => .error "AssertionError: Null default namespace"
      else .ok (w0, w1)

/-- common.py lines 32-41; `words` is never empty, so `not words or not
words[0]` is just `not words[0]`, and the `else` branch additionally asserts
`len(words) == 2` — a colon-free input with a non-empty name fails there. -/
def parse_name_common (name : List Char) (default_namespace : Option (List Char)) :
    Except String (List Char × List Char) :=
  match splitFirstColon name with
  | (w0, rest) =>
      if w0.isEmpty then
        match default_namespace with
        | some d =>
            if d.isEmpty then .error "AssertionError: Null default namespace"
            else
              .ok (d, (match rest with
                       | some w1 => w1
                       | none => w0))
        | none => .error "AssertionError: Null default namespace"
      else
        match rest with
        | some w1 => .ok (w0, w1)
        | none =>
            .error ("AssertionError: Invalid namespace:name specification:"
              ++ String.mk name)

/-! ## File-set algebra

`DBFileSet` holds a lazy sequence of `DBFile` records; for the set algebra
only the file id (`FID`) and an arbitrary payload matter, embedded as `FRec`.
A `DBFileSet` with its default `Limit = None` is embedded as the list of its
files. -/

structure FRec where
  FID : String
  payload : String
deriving DecidableEq, Repr

/-- The `union_generator` loop of `DBFileSet.union` (dbobjects2.py lines
160-167), carrying the running `file_ids` set; the nested
`for lst in file_lists: for f in lst` visits exactly the concatenation of the
input lists, so the generator is embedded as a single pass over it. -/
def union_go (file_ids : List String) : List FRec → List FRec
  | [] => []
  | f :: rest =>
      if f.FID ∈ file_ids then union_go file_ids rest
      else f :: union_go (f.FID :: file_ids) rest

/-- `DBFileSet.union` (dbobjects2.py lines 158-170). -/
def DBFileSet.union (file_sets : List (List FRec)) : List FRec :=
  union_go [] file_sets.flatten

/-- `DBFileSet.subtract` (dbobjects2.py lines 172-177): materialize the right
operand's ids, then keep the left operand's files whose id is not among them,
in the left operand's order. -/
def DBFileSet.subtract (left right : List FRec) : List FRec :=
  let right_ids := right.map FRec.FID
  left.filter fun f => !decide (f.FID ∈ right_ids)

/-- The claim's reading of `union`, written independently of the source:
keep each file and erase every later file carrying the same id, so each id
appears exactly once, at its first occurrence, in first-input-first order. -/
def unionSpec : List FRec → List FRec
  | [] => []
  | f :: rest => f :: unionSpec (rest.filter fun g => !decide (g.FID = f.FID))
termination_by l => l.length
decreasing_by
  simp only [List.length_cons]
  exact Nat.lt_succ_of_le (List.length_filter_le _ _)

/-! ## The basic-query planner

`DBFileSet.from_basic_query` (dbobjects2.py lines 179-209).  The basic file
query is embedded with its dataset selector replaced by the list of datasets
it yields at plan time (`basic_file_query.DatasetSelector.datasets(db)`,
line 192), since only that list drives the case split.  Python runtime
exceptions are embedded as `PyErr` values. -/

inductive PyErr where
  | integrityError
  | alreadyExists (msg : String)
  | attributeError (msg : String)
  | typeError (msg : String)
  | nameError (msg : String)
deriving DecidableEq, Repr

structure BasicFileQuery where
  Wheres : Option (List (List MetaExp)) := none
  DatasetSelector : Option (List (String × String)) := none
  Limit : Option Nat := none
  Relationship : Option String := none
deriving Repr

/-- dbobjects2.py lines 184-187: merge the call-site limit with the query's
own limit. -/
def effective_limit (limit qlimit : Option Nat) : Option Nat :=
  match limit, qlimit with
  | none, ql => ql
  | some l, none => some l
  | some l, some ql => some (min l ql)

/-- The value a successful plan produces.  Only the zero-dataset path of
`from_basic_query` completes: it returns `DBFileSet(db)`, the empty file
set (line 194). -/
inductive PlanResult where
  | emptyFileSet
deriving DecidableEq, Repr

/-- `DBFileSet.from_basic_query` (dbobjects2.py lines 179-209).
With no dataset selector, line 197 evaluates
`DBFileSet.all_files(db, dnf, with_metadata, limit)`: the class defines no
`all_files`, so the lookup raises `AttributeError` (and the local name `dnf`
is unbound as well).  With a selector yielding no datasets, line 194 returns
the empty file set.  Otherwise both the single-dataset branch (line 200) and
the union branch (lines 203-209) invoke `DBDataset.list_files` with
`condition=` and `relationship=` keyword arguments, which its signature
(line 1006: `list_files(self, with_metadata=False, limit=None)`) rejects with
a `TypeError` (in the union branch, as soon as the lazy union is first
consumed). -/
def DBFileSet.from_basic_query (q : BasicFileQuery) (limit : Option Nat) :
    Except PyErr PlanResult :=
  let _limit := effective_limit limit q.Limit
  match q.DatasetSelector with
  | some datasets =>
      if datasets.isEmpty then .ok .emptyFileSet
      else .error (.typeError "list_files() got an unexpected keyword argument 'condition'")
  | none => .error (.attributeError "type object 'DBFileSet' has no attribute 'all_files'")

/-! ## File creation (`DBFile.create`, `DBFile.create_many`)

The rows of the `files` table and of `parent_child` (§6: `files(id pk, ...)`
with unique `(namespace, name)`; `parent_child(parent_id, child_id)` primary
key on the pair) are the embedded database state; inserting rows that violate
a constraint raises the store's `IntegrityError`.  Input files carry explicit
ids: for a file with a falsy id, line 424 (`f.FID = f.FID or
self.generate_id()`) dies with a `NameError` (`self` is unbound in the static
method) before any database work, so such calls never reach the modelled
transaction. -/

structure IFile where
  FID : String
  Namespace : Option String := none
  Name : Option String := none
  Parents : List String := []
deriving DecidableEq, Repr

structure DBState where
  files : List IFile := []
  parent_child : List (String × String) := []
deriving DecidableEq, Repr

/-- A new `files` row conflicts with an existing one when its id is taken or
its `(namespace, name)` pair is taken (null namespaces never compare equal
under the unique constraint). -/
def fileConflict (row : IFile) (existing : List IFile) : Bool :=
  existing.any fun g =>
    g.FID == row.FID ||
    (row.Namespace.isSome && row.Name.isSome &&
      g.Namespace == row.Namespace && g.Name == row.Name)

/-- Insert `files` rows one at a time; the first constraint violation raises
`IntegrityError`. -/
def insertFiles (existing : List IFile) : List IFile → Except PyErr (List IFile)
  | [] => .ok existing
  | f :: rest =>
      if fileConflict f existing then .error .integrityError
      else insertFiles (existing ++ [f]) rest

/-- Insert `parent_child` rows `(parent_id, child_id)` one at a time; a
duplicate pair violates the primary key and raises `IntegrityError`. -/
def insertEdges (existing : List (String × String)) :
    List (String × String) → Except PyErr (List (String × String))
  | [] => .ok existing
  | e :: rest =>
      if existing.contains e then .error .integrityError
      else insertEdges (existing ++ [e]) rest

/-- Python `str(x)` on an optional string (`None` prints as `"None"`). -/
def pyOptStr : Option String → String
  | none => "None"
  | some s => s

/-- `DBFile.create` (dbobjects2.py lines 393-414): insert the file row and its
parent edges; an `IntegrityError` anywhere in the `try` block rolls the
transaction back and is re-raised as
`AlreadyExistsError("%s:%s" % (self.Namespace, self.Name))` (lines 408-410). -/
def DBFile.create (st : DBState) (f : IFile) : Except PyErr Unit × DBState :=
  let key := pyOptStr f.Namespace ++ ":" ++ pyOptStr f.Name
  match insertFiles st.files [f] with
  | .error _ => (.error (.alreadyExists key), st)
  | .ok files2 =>
      match insertEdges st.parent_child (f.Parents.map fun p => (p, f.FID)) with
      | .error _ => (.error (.alreadyExists key), st)
      | .ok edges2 => (.ok (), { files := files2, parent_child := edges2 })

/-- `DBFile.create_many` (dbobjects2.py lines 417-455): bulk-copy all file
rows, then all parent-child rows (child `f.FID`, parent `p`, lines 436 and
445-448), inside one transaction.  Any exception rolls the transaction back
and is re-raised AS IS (lines 450-453): a uniqueness violation surfaces as the
store's `IntegrityError`, not as `AlreadyExistsError`. -/
def DBFile.create_many (st : DBState) (files : List IFile) :
    Except PyErr Unit × DBState :=
  let edges := (files.map fun f => f.Parents.map fun p => (p, f.FID)).flatten
  match insertFiles st.files files with
  | .error e => (.error e, st)
  | .ok files2 =>
      match insertEdges st.parent_child edges with
      | .error e => (.error e, st)
      | .ok edges2 => (.ok (), { files := files2, parent_child := edges2 })

/-! ## JSON projection (`DBFile.to_jsonable`)

dbobjects2.py lines 614-630, with the default `with_datasets = False`.
Python values that can appear in the produced dict are embedded as `PyVal`,
and the dict itself (insertion-ordered, distinct keys) as an association
list. -/

inductive PyVal where
  | str (s : String)
  | int (n : Int)
  | list (vs : List PyVal)
  | pynone
deriving Repr

/-- A `DBFile` record as `to_jsonable` sees it.  `__init__` (line 337)
asserts `(namespace is None) == (name is None)`, so the two are embedded as
one optional pair `NN`. -/
structure PFile where
  FID : String
  NN : Option (String × String) := none
  Metadata : Option PyVal := none
  Size : Option Int := none
  Checksums : Option PyVal := none
  Parents : Option (List String) := none
  Children : Option (List String) := none

/-- One optional dict entry: present exactly when the value is set. -/
def optEntry (k : String) (v : Option PyVal) : List (String × PyVal) :=
  match v with
  | some x => [(k, x)]
  | none => []

/-- `DBFile.to_jsonable` (dbobjects2.py lines 614-630).  Line 615 computes
`ns = self.Name if self.Namespace is None else self.Namespace + ':' + self.Name`
and line 619 stores it under the key `"name"`; the `"namespace"` key holds the
namespace itself.  Each of checksums / size / metadata / parents / children is
added exactly when the attribute is not `None` (lines 621-625); parent and
child entries are reduced to fid lists (lines 624-625). -/
def DBFile.to_jsonable (f : PFile) : List (String × PyVal) :=
  let nsVal : PyVal :=
    match f.NN with
    | some (ns, n) => .str (ns ++ ":" ++ n)
    | none => .pynone
  let namespaceVal : PyVal :=
    match f.NN with
    | some (ns, _) => .str ns
    | none => .pynone
  [("fid", .str f.FID), ("namespace", namespaceVal), ("name", nsVal)]
    ++ optEntry "checksums" f.Checksums
    ++ optEntry "size" (f.Size.map .int)
    ++ optEntry "metadata" f.Metadata
    ++ optEntry "parents" (f.Parents.map fun l => .list (l.map .str))
    ++ optEntry "children" (f.Children.map fun l => .list (l.map .str))

/-! ## Example inputs used by witnesses and counterexamples -/

def exF1 : FRec := { FID := "f1", payload := "p1" }

def exF2 : FRec := { FID := "f2", payload := "p2" }

def exF3 : FRec := { FID := "f3", payload := "p3" }

/-- A database state holding one file `ns:a` with id `f1`. -/
def exState : DBState :=
  { files := [{ FID := "f1", Namespace := some "ns", Name := some "a" }] }

/-- A file record with namespace `ns`, name `n` and no optional attributes. -/
def exPFile : PFile := { FID := "fid1", NN := some ("ns", "n") }

/-! # Claims -/

/-- Reduction of a successful first step of an `Except` `do` block. -/
theorem except_ok_bind {ε α β : Type} (x : α) (k : α → Except ε β) :
    (Except.ok x >>= k) = k x := rfl

/-- Reduction of a failing first step of an `Except` `do` block. -/
theorem except_error_bind {ε α β : Type} (e : ε) (k : α → Except ε β) :
    ((Except.error e : Except ε α) >>= k) = Except.error e := rfl

/-- C1, counterexample.  The claim says a `cmp_op` predicate on a dot-free
attribute outside the fixed-column set — such as `run == 4242` — is treated as
a top-level JSON metadata key and compiled to a JSON-path predicate against
`t.metadata`.  The compiler instead rejects the name: line 798 asserts
`aname in DBFile.ColumnAttributes` whenever the name has no dot. -/
theorem c1_counterexample :
    sql_and_atom "t" (.cmp_op false (.scalar "run") "==" (.i 4242)) =
      .error "AssertionError: aname in DBFile.ColumnAttributes" := by rfl

/-- C1, amended: a `cmp_op` predicate whose attribute name contains no dot is
asserted to be a fixed column — any other dot-free name (such as `run`) fails
with an assertion error — and only an attribute name containing a dot is
treated as a JSON metadata key, compiled to a `metadata @@ '$."<name>" ==
<value>'` predicate. -/
theorem c1_theorem (t a1 a2 : String) (v : Lit)
    (h1 : hasDot a1 = false) (h2 : a1 ∉ ColumnAttributes)
    (h3 : hasDot a2 = true) :
    sql_and_atom t (.cmp_op false (.scalar a1) "==" v) =
      .error "AssertionError: aname in DBFile.ColumnAttributes" ∧
    sql_and_atom t (.cmp_op false (.scalar a2) "==" v) =
      .ok (t ++ ".metadata @@ '$.\"" ++ a2 ++ "\"" ++ "" ++ " " ++ "==" ++ " "
            ++ json_literal v ++ "'") := by
  constructor
  · simp [sql_and_atom, sql_and_body, checkPlainName, Arg.aname, Arg.isScalar, h1, h2,
      except_ok_bind, except_error_bind]
  · simp [sql_and_atom, sql_and_body, checkPlainName, Arg.aname, Arg.isScalar,
      Arg.isArrayLength, Arg.subscript, h3, except_ok_bind, except_error_bind]

/-- C1, witness for `c1_theorem` at `run == 4242` and `a.run == 4242`. -/
theorem c1_witness :
    sql_and_atom "t" (.cmp_op false (.scalar "run") "==" (.i 4242)) =
      .error "AssertionError: aname in DBFile.ColumnAttributes" ∧
    sql_and_atom "t" (.cmp_op false (.scalar "a.run") "==" (.i 4242)) =
      .ok ("t" ++ ".metadata @@ '$.\"" ++ "a.run" ++ "\"" ++ "" ++ " " ++ "==" ++ " "
            ++ json_literal (.i 4242) ++ "'") :=
  c1_theorem "t" "run" "a.run" (.i 4242) (by rfl) (by decide) (by rfl)

/-- C2.  The claim says a regex comparison on a JSON-path attribute compiles
to a `like_regex` filter with the case-insensitivity flag appearing exactly
once.  In the code, line 911 appends the flags to the value and line 913
interpolates the flags again, so for `~*` the filter carries ` flag "i"`
twice; and the claim's own example `files[*]` (a dot-free name) is rejected by
the line 797 assertion before reaching the regex branch.  The negated-operator
half of the claim does hold: `!~` yields `!(...)` around the filter. -/
theorem c2_theorem :
    sql_and_atom "t" (.cmp_op false (.array_any "a.files") "~*" (.s "\\.root$")) =
      .ok "t.metadata @? '$.\"a.files\"[*] ? (@ like_regex \"\\.root$\" flag \"i\"  flag \"i\")'" ∧
    sql_and_atom "t" (.cmp_op false (.array_any "files") "~*" (.s "\\.root$")) =
      .error "AssertionError: arg.T == scalar" ∧
    sql_and_atom "t" (.cmp_op false (.array_any "a.files") "!~" (.s "\\.root$")) =
      .ok "t.metadata @? '$.\"a.files\"[*] ? (!(@ like_regex \"\\.root$\" ))'" :=
  ⟨by rfl, by rfl, by rfl⟩

/-- C3.  The claim says `present` on a JSON key (dotted name) emits
`t.metadata ? '<name>'` and `not_present` emits the same test wrapped in an
outer negation, while fixed columns give the constants `true` / `false`.
The fixed-column half holds, but `not_present` on a JSON key emits exactly
the same unnegated test as `present`: the `negate` local is never set in the
`present`/`not_present` branch (lines 776-788), so line 922 adds no
negation. -/
theorem c3_theorem :
    sql_and_atom "t" (.not_present "a.b") = .ok "t.metadata ? 'a.b'" ∧
    sql_and_atom "t" (.present "a.b") = .ok "t.metadata ? 'a.b'" ∧
    sql_and_atom "t" (.present "size") = .ok "true" ∧
    sql_and_atom "t" (.not_present "size") = .ok "false" ∧
    sql_and_atom "t" (.present "run") = .ok "false" :=
  ⟨by rfl, by rfl, by rfl, by rfl, by rfl⟩

/-- C4, counterexample.  The claim quantifies over every `in_range` predicate
on an `array_length` attribute with `neg` set, including the spec's own
example `not length(parents) between 2 and 5`; but `parents` has no dot, so
line 797 (`assert arg.T == "scalar"`) rejects it instead of emitting the
`not between` form. -/
theorem c4_counterexample :
    sql_and_atom "t" (.in_range true (.array_length "parents") (.i 2) (.i 5)) =
      .error "AssertionError: arg.T == scalar" := by rfl

/-- C4, amended: for an `array_length` attribute whose name contains a dot
(dot-free names fail the line 797 assertion), an `in_range` predicate with
`neg` set absorbs the negation, compiling to
`jsonb_array_length(t.metadata -> '<name>') not between low and high` with no
additional outer `not (...)`; and `not_in_range` with `neg` set cancels the
two negations, yielding the plain `between` form (with an empty negation
slot). -/
theorem c4_theorem (t nm : String) (low high : Int) (h : hasDot nm = true) :
    sql_and_atom t (.in_range true (.array_length nm) (.i low) (.i high)) =
      .ok ("jsonb_array_length(" ++ t ++ ".metadata -> '" ++ nm ++ "') " ++ "not"
            ++ " between " ++ toString low ++ " and " ++ toString high) ∧
    sql_and_atom t (.not_in_range true (.array_length nm) (.i low) (.i high)) =
      .ok ("jsonb_array_length(" ++ t ++ ".metadata -> '" ++ nm ++ "') " ++ ""
            ++ " between " ++ toString low ++ " and " ++ toString high) := by
  constructor <;>
    simp [sql_and_atom, sql_and_body, checkPlainName, Arg.aname, Arg.isScalar,
      Arg.isArrayLength, json_literal, sql_literal, h, except_ok_bind, except_error_bind]

/-- C4, witness for `c4_theorem` at `length(a.parents)` in `[2, 5]`. -/
theorem c4_witness :
    sql_and_atom "t" (.in_range true (.array_length "a.parents") (.i 2) (.i 5)) =
      .ok ("jsonb_array_length(" ++ "t" ++ ".metadata -> '" ++ "a.parents" ++ "') " ++ "not"
            ++ " between " ++ toString (2 : Int) ++ " and " ++ toString (5 : Int)) ∧
    sql_and_atom "t" (.not_in_range true (.array_length "a.parents") (.i 2) (.i 5)) =
      .ok ("jsonb_array_length(" ++ "t" ++ ".metadata -> '" ++ "a.parents" ++ "') " ++ ""
            ++ " between " ++ toString (2 : Int) ++ " and " ++ toString (5 : Int)) :=
  c4_theorem "t" "a.parents" 2 5 (by rfl)

/-- C5.  The claim describes `from_basic_query`'s three-way case split.  Only
the zero-dataset clause holds (line 194 returns the empty file set).  With no
dataset selector, line 197 evaluates `DBFileSet.all_files(db, dnf, ...)`: the
class defines no `all_files` (and `dnf` is unbound), so the call raises
instead of performing a single-table scan.  With exactly one dataset, line 200
passes `condition=` and `relationship=` keywords to `DBDataset.list_files`,
whose signature (line 1006) accepts neither, so the delegation raises
`TypeError` instead of listing the dataset's files. -/
theorem c5_theorem :
    DBFileSet.from_basic_query { DatasetSelector := some [] } none = .ok .emptyFileSet ∧
    DBFileSet.from_basic_query { DatasetSelector := none } none =
      .error (.attributeError "type object 'DBFileSet' has no attribute 'all_files'") ∧
    DBFileSet.from_basic_query { DatasetSelector := some [("ns", "ds")] } none =
      .error (.typeError "list_files() got an unexpected keyword argument 'condition'") :=
  ⟨by rfl, by rfl, by rfl⟩

/-- C6.  The claim says `create_many` with an already existing file rolls the
whole ingest back and fails with the `AlreadyExists` error kind.  The rollback
half holds — the returned state is unchanged, so neither the new files nor the
parent-child edges persist — but lines 450-453 re-raise the store's
`IntegrityError` as is, whereas the single-file `DBFile.create` (lines
408-410) maps the same violation to `AlreadyExistsError`. -/
theorem c6_theorem :
    DBFile.create_many exState
        [{ FID := "f1", Namespace := some "ns", Name := some "b" },
         { FID := "f2", Namespace := some "ns", Name := some "c", Parents := ["f1"] }] =
      (.error .integrityError, exState) ∧
    DBFile.create exState { FID := "f1", Namespace := some "ns", Name := some "b" } =
      (.error (.alreadyExists "ns:b"), exState) :=
  ⟨by rfl, by rfl⟩

/-- Auxiliary for C7: `union_go` with seen-set `ids` equals the first-
occurrence filter applied to the files whose id is not already in `ids`. -/
theorem union_go_eq_unionSpec (l : List FRec) :
    ∀ ids : List String, union_go ids l =
      unionSpec (l.filter fun f => !decide (f.FID ∈ ids)) := by
  induction l with
  | nil => intro ids; simp [union_go, unionSpec]
  | cons f rest ih =>
      intro ids
      by_cases hmem : f.FID ∈ ids
      · simp [union_go, hmem, List.filter_cons, ih]
      · have hfilter :
            List.filter (fun g => !decide (g.FID = f.FID))
                (rest.filter fun g => !decide (g.FID ∈ ids)) =
              rest.filter fun g => !decide (g.FID ∈ f.FID :: ids) := by
          rw [List.filter_filter]
          apply List.filter_congr
          intro g _
          simp [List.mem_cons, Bool.and_comm, not_or, decide_not]
        have hgo : union_go ids (f :: rest) = f :: union_go (f.FID :: ids) rest := by
          simp [union_go, hmem]
        have hpf : (!decide (f.FID ∈ ids)) = true := by simp [hmem]
        rw [hgo, ih (f.FID :: ids), List.filter_cons, hpf, if_pos rfl]
        simp only [unionSpec]
        rw [hfilter]

/-- Auxiliary for C7: ids already in the seen-set never appear in the
output. -/
theorem union_go_id_not_mem (l : List FRec) :
    ∀ (ids : List String) (x : String), x ∈ ids →
      x ∉ (union_go ids l).map FRec.FID := by
  induction l with
  | nil => intro ids x _; simp [union_go]
  | cons f rest ih =>
      intro ids x hx
      by_cases hmem : f.FID ∈ ids
      · simpa [union_go, hmem] using ih ids x hx
      · have hxf : x ≠ f.FID := fun hxx => hmem (hxx ▸ hx)
        have hx2 : x ∈ f.FID :: ids := List.mem_cons_of_mem _ hx
        have hgo : union_go ids (f :: rest) = f :: union_go (f.FID :: ids) rest := by
          simp [union_go, hmem]
        rw [hgo, List.map_cons]
        intro hcon
        rcases List.mem_cons.mp hcon with h1 | h2
        · exact hxf h1
        · exact ih (f.FID :: ids) x hx2 h2

/-- Auxiliary for C7: the output of `union_go` carries each file id at most
once. -/
theorem union_go_fids_nodup (l : List FRec) :
    ∀ ids : List String, ((union_go ids l).map FRec.FID).Nodup := by
  induction l with
  | nil => intro ids; simp [union_go]
  | cons f rest ih =>
      intro ids
      by_cases hmem : f.FID ∈ ids
      · simpa [union_go, hmem] using ih ids
      · have hself : f.FID ∈ f.FID :: ids := List.mem_cons_self _ _
        simp only [union_go, hmem, if_neg, if_false, List.map_cons, List.nodup_cons,
          not_false_eq_true]
        exact ⟨union_go_id_not_mem rest (f.FID :: ids) f.FID hself, ih _⟩

/-- C7.  `union` yields each file id at its first occurrence only, in
first-input-first order — it equals the independent first-occurrence
description `unionSpec` on the concatenated inputs, and its ids are
duplicate-free — and `subtract` yields exactly the files of the left operand
whose id is not in the right operand, preserving the left operand's order
(it is an order-preserving sublist of the left operand).  The claim's two
literal examples are instances. -/
theorem c7_theorem :
    (∀ sets : List (List FRec), DBFileSet.union sets = unionSpec sets.flatten) ∧
    (∀ sets : List (List FRec), ((DBFileSet.union sets).map FRec.FID).Nodup) ∧
    (∀ l r : List FRec,
      DBFileSet.subtract l r = l.filter fun f => !decide (f.FID ∈ r.map FRec.FID)) ∧
    (∀ l r : List FRec, List.Sublist (DBFileSet.subtract l r) l) ∧
    (∀ (l r : List FRec) (f : FRec),
      f ∈ DBFileSet.subtract l r ↔ f ∈ l ∧ ¬ (f.FID ∈ r.map FRec.FID)) ∧
    DBFileSet.union [[exF1, exF2], [exF2, exF3]] = [exF1, exF2, exF3] ∧
    DBFileSet.subtract [exF1, exF2, exF3] [exF2] = [exF1, exF3] := by
  refine ⟨?_, ?_, ?_, ?_, ?_, by rfl, by rfl⟩
  · intro sets
    rw [DBFileSet.union, union_go_eq_unionSpec]
    congr 1
    apply List.filter_eq_self.mpr
    intro a _
    simp
  · intro sets
    exact union_go_fids_nodup _ []
  · intro l r
    rfl
  · intro l r
    exact List.filter_sublist l
  · intro l r f
    simp [DBFileSet.subtract, List.mem_filter]

/-- Auxiliary for C8: when every list element maps to a success, `mapM`
succeeds with the corresponding outputs. -/
theorem mapM_ok_of_forall₂ {α β : Type} (f : α → Except String β) :
    ∀ {l : List α} {l' : List β},
      List.Forall₂ (fun a b => f a = .ok b) l l' → l.mapM f = .ok l' := by
  intro l
  induction l with
  | nil =>
      intro l' h
      cases h
      rfl
  | cons a as ih =>
      intro l' h
      cases h with
      | cons hab htail =>
          rw [List.mapM_cons, hab, ih htail]
          rfl

/-- C8.  An absent expression (and an expression with no and-terms) compiles
to no WHERE expression, and the planner then emits an empty where-clause
(line 224); a non-empty DNF compiles to the `" or "`-joined disjunction of its
and-terms, each and-term being the `" and "`-joined conjunction of its
parenthesized atomic terms. -/
theorem c8_theorem (t : String) (l : List (List MetaExp)) (terms : List (List String))
    (hne : l ≠ [])
    (h : List.Forall₂ (fun andT strs =>
          List.Forall₂ (fun e s => sql_and_atom t e = .ok s) andT strs) l terms) :
    MetaExpressionDNF.sql none t = .ok none ∧
    MetaExpressionDNF.sql (some []) t = .ok none ∧
    meta_where_clause none = "" ∧
    MetaExpressionDNF.sql (some l) t =
      .ok (some (String.intercalate " or " (terms.map fun strs =>
        String.intercalate " and " (strs.map fun p => "(" ++ p ++ ")")))) := by
  refine ⟨rfl, rfl, rfl, ?_⟩
  have hterms : l.mapM (fun andT => sql_and andT t) =
      .ok (terms.map fun strs =>
        String.intercalate " and " (strs.map fun p => "(" ++ p ++ ")")) := by
    apply mapM_ok_of_forall₂
    rw [List.forall₂_map_right_iff]
    apply h.imp
    intro andT strs hab
    show sql_and andT t = _
    rw [sql_and, mapM_ok_of_forall₂ _ hab]
    rfl
  have hempty : l.isEmpty = false := List.isEmpty_eq_false.mpr hne
  have hsql : MetaExpressionDNF.sql (some l) t =
      (do
        let terms ← l.mapM (fun andT => sql_and andT t)
        return some (String.intercalate " or " terms)) := by
    simp only [MetaExpressionDNF.sql, hempty, Bool.false_eq_true, if_false]
  rw [hsql, hterms]
  rfl

/-- C8, witness for `c8_theorem` at the two-term DNF
`(a.b present) or (size < 10)`. -/
theorem c8_witness :
    MetaExpressionDNF.sql
        (some [[.present "a.b"], [.cmp_op false (.scalar "size") "<" (.i 10)]]) "t" =
      .ok (some "(t.metadata ? 'a.b') or (t.size < 10)") := by
  have h := c8_theorem "t"
      [[.present "a.b"], [.cmp_op false (.scalar "size") "<" (.i 10)]]
      [["t.metadata ? 'a.b'"], ["t.size < 10"]]
      (by simp)
      (by
        refine List.Forall₂.cons ?_ (List.Forall₂.cons ?_ List.Forall₂.nil)
        · exact List.Forall₂.cons (by rfl) List.Forall₂.nil
        · exact List.Forall₂.cons (by rfl) List.Forall₂.nil)
  exact h.2.2.2

/-- Auxiliary for C9: splitting a colon-free string finds no separator. -/
theorem splitFirstColon_no_colon (w : List Char) (h : ':' ∉ w) :
    splitFirstColon w = (w, none) := by
  induction w with
  | nil => rfl
  | cons c rest ih =>
      have hc : ¬ (c = ':') := fun hcc => h (by simp [hcc])
      have hrest : ':' ∉ rest := fun hr => h (List.mem_cons_of_mem _ hr)
      simp [splitFirstColon, hc, ih hrest]

/-- Auxiliary for C9: splitting at the first colon separates the colon-free
prefix from the remainder. -/
theorem splitFirstColon_append (ns n : List Char) (h : ':' ∉ ns) :
    splitFirstColon (ns ++ ':' :: n) = (ns, some n) := by
  induction ns with
  | nil => simp [splitFirstColon]
  | cons c rest ih =>
      have hc : ¬ (c = ':') := fun hcc => h (by simp [hcc])
      have hrest : ':' ∉ rest := fun hr => h (List.mem_cons_of_mem _ hr)
      simp [splitFirstColon, hc, ih hrest]

/-- C9, counterexample.  The claim says the two `parse_name` implementations
agree on every input and that a separator-free input falls back to the
default namespace.  On the colon-free input `abc` with default namespace
`dn`, the dbobjects2.py version returns `(dn, abc)`, while the common.py
version raises its `len(words) == 2` assertion instead. -/
theorem c9_counterexample :
    parse_name "abc".data (some "dn".data) = .ok ("dn".data, "abc".data) ∧
    parse_name_common "abc".data (some "dn".data) =
      .error "AssertionError: Invalid namespace:name specification:abc" :=
  ⟨by rfl, by rfl⟩

/-- C9, amended: both implementations split on the first `:` and return the
two parts when a non-empty namespace precedes the separator, and both fall
back to a required non-empty default namespace when the left side is empty
(failing when it is missing).  When the separator is absent, only the
dbobjects2.py version falls back to the default namespace; the common.py
version rejects any non-empty colon-free input with an invalid-name
assertion, so the two implementations agree only on inputs that contain `:`
or are empty. -/
theorem c9_theorem (ns n w d : List Char)
    (hns : ns ≠ []) (hnsc : ':' ∉ ns) (hw : ':' ∉ w) (hwne : w ≠ []) (hd : d ≠ []) :
    parse_name (ns ++ ':' :: n) none = .ok (ns, n) ∧
    parse_name_common (ns ++ ':' :: n) none = .ok (ns, n) ∧
    parse_name (':' :: n) (some d) = .ok (d, n) ∧
    parse_name_common (':' :: n) (some d) = .ok (d, n) ∧
    parse_name (':' :: n) none = .error "AssertionError: Null default namespace" ∧
    parse_name w (some d) = .ok (d, w) ∧
    parse_name w none = .error "AssertionError: Null default namespace" ∧
    parse_name_common w (some d) =
      .error ("AssertionError: Invalid namespace:name specification:" ++ String.mk w) := by
  have hsplit := splitFirstColon_append ns n hnsc
  have hsplitc : splitFirstColon (':' :: n) = ([], some n) := by
    simp [splitFirstColon]
  have hsplitw := splitFirstColon_no_colon w hw
  have hnse : ns.isEmpty = false := List.isEmpty_eq_false.mpr hns
  have hde : d.isEmpty = false := List.isEmpty_eq_false.mpr hd
  have hwe : w.isEmpty = false := List.isEmpty_eq_false.mpr hwne
  refine ⟨?_, ?_, ?_, ?_, ?_, ?_, ?_, ?_⟩ <;>
    simp [parse_name, parse_name_common, hsplit, hsplitc, hsplitw, hnse, hde, hwe]

/-- C9, witness for `c9_theorem` at `ns = ab`, `n = c`, `w = abc`,
`d = dn`. -/
theorem c9_witness :
    parse_name ("ab".data ++ ':' :: "c".data) none = .ok ("ab".data, "c".data) ∧
    parse_name_common ("ab".data ++ ':' :: "c".data) none = .ok ("ab".data, "c".data) ∧
    parse_name (':' :: "c".data) (some "dn".data) = .ok ("dn".data, "c".data) ∧
    parse_name_common (':' :: "c".data) (some "dn".data) = .ok ("dn".data, "c".data) ∧
    parse_name (':' :: "c".data) none = .error "AssertionError: Null default namespace" ∧
    parse_name "abc".data (some "dn".data) = .ok ("dn".data, "abc".data) ∧
    parse_name "abc".data none = .error "AssertionError: Null default namespace" ∧
    parse_name_common "abc".data (some "dn".data) =
      .error ("AssertionError: Invalid namespace:name specification:" ++ String.mk "abc".data) :=
  c9_theorem "ab".data "c".data "abc".data "dn".data
    (by decide) (by decide) (by decide) (by decide) (by decide)

/-- C10, counterexample.  The claim says the `"name"` entry of `to_jsonable`
equals the record's bare name; line 615 stores `namespace + ':' + name`
under that key instead, so for the record with namespace `ns` and name `n`
the entry is `"ns:n"`, not `"n"`. -/
theorem c10_counterexample :
    (DBFile.to_jsonable exPFile).lookup "name" = some (.str "ns:n") ∧
    "ns:n" ≠ "n" :=
  ⟨by rfl, by decide⟩

/-- C10, amended: for a record with namespace `ns` and name `n`, `to_jsonable`
maps `"fid"` to the file id, `"namespace"` to `ns`, and `"name"` to the full
`ns ++ ":" ++ n` (not the bare name); each of the optional entries
checksums / size / metadata / parents / children is present exactly when the
corresponding attribute is set. -/
theorem c10_theorem (f : PFile) (ns n : String) (h : f.NN = some (ns, n)) :
    (DBFile.to_jsonable f).lookup "fid" = some (.str f.FID) ∧
    (DBFile.to_jsonable f).lookup "namespace" = some (.str ns) ∧
    (DBFile.to_jsonable f).lookup "name" = some (.str (ns ++ ":" ++ n)) ∧
    ((DBFile.to_jsonable f).lookup "checksums").isSome = f.Checksums.isSome ∧
    ((DBFile.to_jsonable f).lookup "size").isSome = f.Size.isSome ∧
    ((DBFile.to_jsonable f).lookup "metadata").isSome = f.Metadata.isSome ∧
    ((DBFile.to_jsonable f).lookup "parents").isSome = f.Parents.isSome ∧
    ((DBFile.to_jsonable f).lookup "children").isSome = f.Children.isSome := by
  obtain ⟨fid, nn, md, sz, cs, ps, ch⟩ := f
  simp only at h
  subst h
  cases md <;> cases sz <;> cases cs <;> cases ps <;> cases ch <;>
    simp [DBFile.to_jsonable, optEntry, List.lookup]

/-- C10, witness for `c10_theorem` at the record `ns:n` with id `fid1`. -/
theorem c10_witness :
    (DBFile.to_jsonable exPFile).lookup "fid" = some (.str "fid1") ∧
    (DBFile.to_jsonable exPFile).lookup "namespace" = some (.str "ns") ∧
    (DBFile.to_jsonable exPFile).lookup "name" = some (.str ("ns" ++ ":" ++ "n")) ∧
    ((DBFile.to_jsonable exPFile).lookup "checksums").isSome = false ∧
    ((DBFile.to_jsonable exPFile).lookup "size").isSome = false ∧
    ((DBFile.to_jsonable exPFile).lookup "metadata").isSome = false ∧
    ((DBFile.to_jsonable exPFile).lookup "parents").isSome = false ∧
    ((DBFile.to_jsonable exPFile).lookup "children").isSome = false :=
  c10_theorem exPFile "ns" "n" (by rfl)

end Metacat
